import Mathlib

/-!
Verification of the scheduling and action-dispatch core of a Tapo smart-plug
control service (`src/main.py`).

The embedding models:
* the persisted schedule file (`data/schedules.json`) as a `FileState`;
* `load_schedules` / `save_schedules` (main.py lines 33-43);
* the APScheduler job table of the global `BackgroundScheduler` as an
  association list `List (String × Job)`; `scheduler.add_job(..., id=job_id,
  replace_existing=True)` as `addJob`; `scheduler.remove_job` wrapped in the
  source's bare `try/except: pass` as `remove_job_caught`;
* `schedule_job` (lines 61-69): APScheduler's `CronTrigger(hour=hour,
  minute=minute)` raises `ValueError` when hour is outside 0..23 or minute is
  outside 0..59, modelled by the `cronRangeOk` guard; the source itself
  performs no validation;
* the HTTP handlers `get_schedules`, `add_schedule`, `delete_schedule`,
  `turn_on`, `turn_off` (lines 144-199) and the startup path
  `load_and_schedule` (lines 72-77).

Python exceptions escaping a function are modelled with `Except`: a handler
returning `Except.error e` means the exception `e` propagated out of the
handler uncaught.  State that was already mutated when the exception was
raised (e.g. a file written before a later failure) is kept, exactly as in
the Python process.
-/

namespace FrogBubler

/-- A persisted schedule rule, as stored in `data/schedules.json`:
`{"id": ..., "action": ..., "hour": ..., "minute": ...}` (main.py 173-178).
The source never validates `action`, so it is an arbitrary string. -/
structure ScheduleRule where
  id : String
  action : String
  hour : Int
  minute : Int
deriving DecidableEq, Repr

/-- State of the backing file `data/schedules.json`.  `json.dump`/`json.load`
of a list of rule objects round-trip at the value level, so the parsed
content is modelled directly as the list of rules. -/
inductive FileState where
  | noFile
  | corrupt
  | content (rules : List ScheduleRule)
deriving DecidableEq, Repr

/-- Exceptions relevant to the core: a `json.load` parse failure, an OS-level
write failure, APScheduler's `ValueError` from an out-of-range `CronTrigger`
field, and a device/connection failure carrying its message. -/
inductive CoreError where
  | storageError
  | ioError
  | valueError
  | deviceError (msg : String)
deriving DecidableEq, Repr

/-- The callable a timer fires: `lambda: asyncio.run(turn_on_plug())` or
`lambda: asyncio.run(turn_off_plug())` (main.py 62-65). -/
inductive JobAction where
  | jobOn
  | jobOff
deriving DecidableEq, Repr

/-- One live APScheduler job: its callable plus its `CronTrigger` fields. -/
structure Job where
  action : JobAction
  hour : Int
  minute : Int
deriving DecidableEq, Repr

/-- Observable storage/scheduler events, used to state ordering properties:
a full rewrite of the schedule file, an `add_job`, a `remove_job`. -/
inductive Event where
  | saved (rules : List ScheduleRule)
  | armed (jobId : String)
  | disarmed (jobId : String)
deriving DecidableEq, Repr

/-- Process state: the schedule file, the scheduler's job table, whether the
next file write raises an `IOError` (environment fault model), and the trace
of storage/scheduler events performed so far. -/
structure ServerState where
  file : FileState
  jobs : List (String × Job)
  diskFails : Bool
  trace : List Event
deriving DecidableEq, Repr

/-- main.py 33-37: return the parsed file content, `[]` when the file does
not exist; `json.load` raises on an unparseable file. -/
def load_schedules : FileState → Except CoreError (List ScheduleRule)
  | .noFile => .ok []
  | .corrupt => .error .storageError
  | .content rules => .ok rules

/-- main.py 40-43: create the directory if needed and overwrite the file
with the full list; an I/O failure raises. -/
def save_schedules (schedules : List ScheduleRule) (st : ServerState) :
    Except CoreError ServerState :=
  if st.diskFails then .error .ioError
  else .ok { st with
    file := .content schedules,
    trace := st.trace ++ [.saved schedules] }

/-- `CronTrigger(hour=hour, minute=minute)` accepts exactly hour 0..23 and
minute 0..59; anything else raises `ValueError` (APScheduler cron-field
validation, triggered from main.py 68). -/
def cronRangeOk (hour minute : Int) : Prop :=
  0 ≤ hour ∧ hour ≤ 23 ∧ 0 ≤ minute ∧ minute ≤ 59

instance (hour minute : Int) : Decidable (cronRangeOk hour minute) := by
  unfold cronRangeOk
  exact inferInstance

/-- `scheduler.add_job(func, trigger, id=job_id, replace_existing=True)`
on the job table: when a job with this id exists it is replaced in place,
otherwise the new job is appended. -/
def addJob (jobs : List (String × Job)) (jobId : String) (j : Job) :
    List (String × Job) :=
  if jobs.any (fun p => p.1 = jobId) then
    jobs.map (fun p => if p.1 = jobId then (jobId, j) else p)
  else jobs ++ [(jobId, j)]

/-- main.py 61-69: pick the on/off callable by exact string comparison with
`"on"`, build the `CronTrigger` (which validates the ranges), and register
the job with `replace_existing=True`. -/
def schedule_job (action : String) (hour minute : Int) (jobId : String)
    (st : ServerState) : Except CoreError ServerState :=
  let act := if action = "on" then JobAction.jobOn else JobAction.jobOff
  if cronRangeOk hour minute then
    .ok { st with
      jobs := addJob st.jobs jobId ⟨act, hour, minute⟩,
      trace := st.trace ++ [.armed jobId] }
  else .error .valueError

/-- main.py 194-197: `try: scheduler.remove_job(schedule_id) except: pass`.
`remove_job` raises `JobLookupError` when the id is not armed; the bare
`except` swallows it, so an absent id is a no-op. -/
def remove_job_caught (jobId : String) (st : ServerState) : ServerState :=
  if st.jobs.any (fun p => p.1 = jobId) then
    { st with
      jobs := st.jobs.filter (fun p => p.1 ≠ jobId),
      trace := st.trace ++ [.disarmed jobId] }
  else st

/-- main.py 172: `f"schedule_{len(schedules)}_{datetime.now().timestamp()}"`;
the timestamp is passed in as an opaque string. -/
def make_schedule_id (n : Nat) (ts : String) : String :=
  "schedule_" ++ toString n ++ "_" ++ ts

/-- Response of `POST /api/schedules` (main.py 185). -/
structure AddResp where
  success : Bool
  schedule : ScheduleRule
deriving DecidableEq, Repr

/-- Response of `DELETE /api/schedules/<id>` (main.py 199). -/
structure DeleteResp where
  success : Bool
deriving DecidableEq, Repr

/-- main.py 167-185, `POST /api/schedules`.  No try/except: any exception
from loading, saving or `CronTrigger` escapes the handler (second component
`.error`), leaving whatever state was already mutated. -/
def add_schedule (action : String) (hour minute : Int) (ts : String)
    (st : ServerState) : ServerState × Except CoreError AddResp :=
  match load_schedules st.file with
  | .error e => (st, .error e)
  | .ok schedules =>
    let scheduleId := make_schedule_id schedules.length ts
    let newSchedule : ScheduleRule :=
      { id := scheduleId, action := action, hour := hour, minute := minute }
    let schedules' := schedules ++ [newSchedule]
    match save_schedules schedules' st with
    | .error e => (st, .error e)
    | .ok st1 =>
      match schedule_job action hour minute scheduleId st1 with
      | .error e => (st1, .error e)
      | .ok st2 => (st2, .ok { success := true, schedule := newSchedule })

/-- main.py 188-199, `DELETE /api/schedules/<id>`: filter out every rule
with the given id, rewrite the file, then best-effort remove the job. -/
def delete_schedule (scheduleId : String) (st : ServerState) :
    ServerState × Except CoreError DeleteResp :=
  match load_schedules st.file with
  | .error e => (st, .error e)
  | .ok schedules =>
    let schedules' := schedules.filter (fun s => s.id ≠ scheduleId)
    match save_schedules schedules' st with
    | .error e => (st, .error e)
    | .ok st1 => (remove_job_caught scheduleId st1, .ok { success := true })

/-- main.py 162-164, `GET /api/schedules`: `jsonify(load_schedules())` with
no try/except, so a parse failure escapes the handler. -/
def get_schedules (st : ServerState) : Except CoreError (List ScheduleRule) :=
  load_schedules st.file

/-- main.py 72-77 loop body: arm each loaded rule in order; an exception
from `schedule_job` aborts the loop, keeping the jobs armed so far. -/
def schedule_all : List ScheduleRule → ServerState →
    ServerState × Except CoreError Unit
  | [], st => (st, .ok ())
  | r :: rest, st =>
    match schedule_job r.action r.hour r.minute r.id st with
    | .error e => (st, .error e)
    | .ok st1 => schedule_all rest st1

/-- main.py 72-77: load the stored rules and arm one timer per rule. -/
def load_and_schedule (st : ServerState) :
    ServerState × Except CoreError Unit :=
  match load_schedules st.file with
  | .error e => (st, .error e)
  | .ok schedules => schedule_all schedules st

/-- HTTP response of the manual on/off handlers: status code, `success`
field, optional `error` field. -/
structure HttpResponse where
  status : Nat
  success : Bool
  error : Option String
deriving DecidableEq, Repr

/-- main.py 144-150, `POST /api/turn_on`.  `gateway` is the outcome of
`await turn_on_plug()` (connect + command against the device, which may
raise with a message).  The handler's try/except maps any exception to
`{"success": false, "error": str(e)}` with HTTP 500. -/
def turn_on (gateway : Except String Unit) : HttpResponse :=
  match gateway with
  | .ok _ => { status := 200, success := true, error := none }
  | .error e => { status := 500, success := false, error := some e }

/-- main.py 153-159, `POST /api/turn_off`, same shape as `turn_on`. -/
def turn_off (gateway : Except String Unit) : HttpResponse :=
  match gateway with
  | .ok _ => { status := 200, success := true, error := none }
  | .error e => { status := 500, success := false, error := some e }

/-! ### Concurrency model for device dispatches

`turn_on_plug`/`turn_off_plug` (main.py 51-58) each perform `get_device()`
(a fresh connect) followed by the device command.  A fired timer runs this
in an APScheduler worker thread; a manual `POST /api/turn_on` runs it in a
request thread.  The source takes no lock around either sequence, so the
two threads' gateway operations may interleave in any order that preserves
each thread's own program order. -/

/-- An operation against the device gateway. -/
inductive GatewayOp where
  | connect
  | command
deriving DecidableEq, Repr

/-- The gateway operations one dispatch performs, in program order:
`get_device()` then `device.on()`/`device.off()` (main.py 51-58).  There is
no lock acquisition or release in this sequence. -/
def dispatch_ops : List GatewayOp := [.connect, .command]

/-- Which thread issued an operation: a fired timer callback or a manual
HTTP request. -/
inductive ThreadTag where
  | timer
  | manual
deriving DecidableEq, Repr

/-- The operations of one thread in a global schedule. -/
def ops_of (t : ThreadTag) (tr : List (ThreadTag × GatewayOp)) :
    List GatewayOp :=
  (tr.filter (fun p => p.1 = t)).map Prod.snd

/-- A global schedule is possible when it is an interleaving of the two
dispatches: each thread's operations appear in its program order
(`dispatch_ops`), with no further constraint, since the source code imposes
no synchronization between the two threads. -/
def possible_schedule (tr : List (ThreadTag × GatewayOp)) : Prop :=
  ops_of .timer tr = dispatch_ops ∧ ops_of .manual tr = dispatch_ops

instance (tr : List (ThreadTag × GatewayOp)) :
    Decidable (possible_schedule tr) := by
  unfold possible_schedule
  exact inferInstance

/-- A schedule is serialized when one dispatch's connect+command sequence
completes entirely before the other one starts. -/
def serialized_schedule (tr : List (ThreadTag × GatewayOp)) : Prop :=
  tr = dispatch_ops.map (fun op => (ThreadTag.timer, op)) ++
        dispatch_ops.map (fun op => (ThreadTag.manual, op)) ∨
  tr = dispatch_ops.map (fun op => (ThreadTag.manual, op)) ++
        dispatch_ops.map (fun op => (ThreadTag.timer, op))

instance (tr : List (ThreadTag × GatewayOp)) :
    Decidable (serialized_schedule tr) := by
  unfold serialized_schedule
  exact inferInstance

/-! ### Helper lemmas about the job table -/

theorem replace_map_fst (l : List (String × Job)) (jobId : String) (j : Job) :
    (l.map (fun p => if p.1 = jobId then (jobId, j) else p)).map Prod.fst =
      l.map Prod.fst := by
  induction l with
  | nil => rfl
  | cons hd tl ih =>
    simp only [List.map_cons, ih]
    by_cases hc : hd.1 = jobId
    · simp [hc]
    · simp [hc]

theorem not_mem_fst_of_any_false (l : List (String × Job)) (jobId : String)
    (h : l.any (fun p => p.1 = jobId) = false) :
    jobId ∉ l.map Prod.fst := by
  intro hin
  obtain ⟨p, hp, hpe⟩ := List.mem_map.mp hin
  rw [List.any_eq_false] at h
  exact h p hp (by simp [hpe])

theorem addJob_map_fst_nodup (jobs : List (String × Job)) (jobId : String)
    (j : Job) (h : (jobs.map Prod.fst).Nodup) :
    ((addJob jobs jobId j).map Prod.fst).Nodup := by
  unfold addJob
  by_cases hmem : jobs.any (fun p => p.1 = jobId) = true
  · rw [if_pos hmem, replace_map_fst]
    exact h
  · rw [if_neg hmem]
    rw [Bool.not_eq_true] at hmem
    have hnot := not_mem_fst_of_any_false jobs jobId hmem
    simp only [List.map_append, List.map_cons, List.map_nil]
    rw [List.nodup_append]
    exact ⟨h, List.nodup_singleton jobId, by simpa using hnot⟩

theorem replace_filter_eq (l : List (String × Job)) (jobId : String) (j : Job)
    (hnd : (l.map Prod.fst).Nodup)
    (hmem : l.any (fun p => p.1 = jobId) = true) :
    (l.map (fun p => if p.1 = jobId then (jobId, j) else p)).filter
        (fun p => p.1 = jobId) = [(jobId, j)] := by
  induction l with
  | nil => simp at hmem
  | cons hd tl ih =>
    simp only [List.map_cons, List.nodup_cons] at hnd
    by_cases hc : hd.1 = jobId
    · have htl : ∀ p ∈ tl, ¬ p.1 = jobId := by
        intro p hp hpe
        exact hnd.1 (List.mem_map.mpr ⟨p, hp, hpe.trans hc.symm⟩)
      have htl' : tl.map (fun p => if p.1 = jobId then (jobId, j) else p) = tl := by
        rw [List.map_congr_left (fun p hp => if_neg (htl p hp))]
        exact List.map_id tl
      have hfil : tl.filter (fun p => p.1 = jobId) = [] :=
        List.filter_eq_nil_iff.mpr (fun p hp => by simpa using htl p hp)
      simp [if_pos hc, htl', List.filter_cons, hfil]
    · have hmem' : tl.any (fun p => p.1 = jobId) = true := by
        rw [List.any_eq_true] at hmem ⊢
        obtain ⟨p, hp, hpe⟩ := hmem
        rcases List.mem_cons.mp hp with rfl | hptl
        · exact absurd (by simpa using hpe) hc
        · exact ⟨p, hptl, hpe⟩
      simp only [List.map_cons, if_neg hc, List.filter_cons]
      rw [ih hnd.2 hmem']
      simp [hc]

theorem addJob_filter_eq (jobs : List (String × Job)) (jobId : String) (j : Job)
    (hnd : (jobs.map Prod.fst).Nodup) :
    (addJob jobs jobId j).filter (fun p => p.1 = jobId) = [(jobId, j)] := by
  unfold addJob
  by_cases hmem : jobs.any (fun p => p.1 = jobId) = true
  · rw [if_pos hmem]
    exact replace_filter_eq jobs jobId j hnd hmem
  · rw [if_neg hmem]
    rw [Bool.not_eq_true] at hmem
    rw [List.filter_append]
    have hfil : jobs.filter (fun p => p.1 = jobId) = [] := by
      rw [List.any_eq_false] at hmem
      exact List.filter_eq_nil_iff.mpr hmem
    simp [hfil]

/-! ### Evaluation lemmas for the schedule handlers -/

theorem save_schedules_ok (schedules : List ScheduleRule) (st : ServerState)
    (hdisk : st.diskFails = false) :
    save_schedules schedules st =
      .ok { st with file := .content schedules,
                    trace := st.trace ++ [.saved schedules] } := by
  simp [save_schedules, hdisk]

theorem remove_job_caught_file (jobId : String) (st : ServerState) :
    (remove_job_caught jobId st).file = st.file := by
  unfold remove_job_caught
  split <;> rfl

theorem remove_job_caught_trace (jobId : String) (st : ServerState) :
    (remove_job_caught jobId st).trace = st.trace ∨
    (remove_job_caught jobId st).trace = st.trace ++ [.disarmed jobId] := by
  unfold remove_job_caught
  split
  · exact Or.inr rfl
  · exact Or.inl rfl

theorem remove_job_caught_no_op (jobId : String) (st : ServerState)
    (h : st.jobs.any (fun p => p.1 = jobId) = false) :
    remove_job_caught jobId st = st := by
  simp [remove_job_caught, h]

theorem add_schedule_load_error (action : String) (hour minute : Int)
    (ts : String) (st : ServerState) (e : CoreError)
    (hld : load_schedules st.file = .error e) :
    add_schedule action hour minute ts st = (st, .error e) := by
  simp [add_schedule, hld]

theorem add_schedule_disk_fail (action : String) (hour minute : Int)
    (ts : String) (st : ServerState) (rules : List ScheduleRule)
    (hld : load_schedules st.file = .ok rules) (hdisk : st.diskFails = true) :
    add_schedule action hour minute ts st = (st, .error .ioError) := by
  simp [add_schedule, hld, save_schedules, hdisk]

theorem add_schedule_ok_eq (action : String) (hour minute : Int)
    (ts : String) (st : ServerState) (rules : List ScheduleRule)
    (hld : load_schedules st.file = .ok rules) (hdisk : st.diskFails = false)
    (hr : cronRangeOk hour minute) :
    add_schedule action hour minute ts st =
      ({ st with
          file := .content
            (rules ++ [⟨make_schedule_id rules.length ts, action, hour, minute⟩]),
          jobs := addJob st.jobs (make_schedule_id rules.length ts)
            ⟨if action = ("on") then JobAction.jobOn else JobAction.jobOff,
              hour, minute⟩,
          trace := st.trace ++
            [Event.saved
              (rules ++
                [⟨make_schedule_id rules.length ts, action, hour, minute⟩]),
             Event.armed (make_schedule_id rules.length ts)] },
       .ok ⟨true, ⟨make_schedule_id rules.length ts, action, hour, minute⟩⟩) := by
  simp [add_schedule, hld, save_schedules, hdisk, schedule_job, hr]

theorem add_schedule_invalid_eq (action : String) (hour minute : Int)
    (ts : String) (st : ServerState) (rules : List ScheduleRule)
    (hld : load_schedules st.file = .ok rules) (hdisk : st.diskFails = false)
    (hr : ¬ cronRangeOk hour minute) :
    add_schedule action hour minute ts st =
      ({ st with
          file := .content
            (rules ++ [⟨make_schedule_id rules.length ts, action, hour, minute⟩]),
          trace := st.trace ++
            [Event.saved
              (rules ++
                [⟨make_schedule_id rules.length ts, action, hour, minute⟩])] },
       .error .valueError) := by
  simp [add_schedule, hld, save_schedules, hdisk, schedule_job, hr]

theorem delete_schedule_load_error (scheduleId : String) (st : ServerState)
    (e : CoreError) (hld : load_schedules st.file = .error e) :
    delete_schedule scheduleId st = (st, .error e) := by
  simp [delete_schedule, hld]

theorem delete_schedule_disk_fail (scheduleId : String) (st : ServerState)
    (rules : List ScheduleRule)
    (hld : load_schedules st.file = .ok rules) (hdisk : st.diskFails = true) :
    delete_schedule scheduleId st = (st, .error .ioError) := by
  simp [delete_schedule, hld, save_schedules, hdisk]

theorem delete_schedule_ok_eq (scheduleId : String) (st : ServerState)
    (rules : List ScheduleRule)
    (hld : load_schedules st.file = .ok rules) (hdisk : st.diskFails = false) :
    delete_schedule scheduleId st =
      (remove_job_caught scheduleId
        { st with
            file := .content (rules.filter (fun s => s.id ≠ scheduleId)),
            trace := st.trace ++
              [.saved (rules.filter (fun s => s.id ≠ scheduleId))] },
       .ok { success := true }) := by
  simp [delete_schedule, hld, save_schedules, hdisk]

/-! ### Claim theorems -/

/-- C1: the claim says two concurrent device dispatches are serialized and
never overlap.  The code takes no lock, so the schedule in which both
threads connect before either issues its command is a possible interleaving
of a fired timer and a simultaneous manual request, and it is not
serialized: the connect+command windows overlap. -/
theorem concurrent_dispatches_can_overlap :
    possible_schedule
      [(ThreadTag.timer, GatewayOp.connect),
       (ThreadTag.manual, GatewayOp.connect),
       (ThreadTag.timer, GatewayOp.command),
       (ThreadTag.manual, GatewayOp.command)] ∧
    ¬ serialized_schedule
      [(ThreadTag.timer, GatewayOp.connect),
       (ThreadTag.manual, GatewayOp.connect),
       (ThreadTag.timer, GatewayOp.command),
       (ThreadTag.manual, GatewayOp.command)] := by
  decide

/-- C2: the claim says an out-of-range hour fails with a `ValidationError`,
persists no rule and arms no timer.  Evaluating `POST /api/schedules` with
`{"action": "on", "hour": 24, "minute": 0}` on an empty store: the rule IS
persisted to the file, then `CronTrigger` raises `ValueError`, which escapes
the handler uncaught; no timer is armed. -/
theorem add_schedule_hour_24_persists_then_raises :
    (add_schedule ("on") 24 0 ("t0")
        { file := .content [], jobs := [], diskFails := false, trace := [] }).2 =
      .error .valueError ∧
    (add_schedule ("on") 24 0 ("t0")
        { file := .content [], jobs := [], diskFails := false, trace := [] }).1.file =
      .content [{ id := ("schedule_0_t0"), action := ("on"),
                  hour := 24, minute := 0 }] ∧
    (add_schedule ("on") 24 0 ("t0")
        { file := .content [], jobs := [], diskFails := false, trace := [] }).1.jobs =
      [] :=
  ⟨rfl, rfl, rfl⟩

/-- C3: arming a rule via `schedule_job` keeps the scheduler's job ids
unique and leaves exactly one live job for the rule's id — the newly
registered one (`replace_existing=True` replaces any prior job in place),
so no instant exists where both an old and a new timer for the same id are
armed. -/
theorem schedule_job_unique_live_timer (action : String) (hour minute : Int)
    (jobId : String) (st st' : ServerState)
    (hnd : (st.jobs.map Prod.fst).Nodup)
    (hok : schedule_job action hour minute jobId st = .ok st') :
    ((st'.jobs.map Prod.fst).Nodup) ∧
    st'.jobs.filter (fun p => p.1 = jobId) =
      [(jobId,
        { action := if action = "on" then JobAction.jobOn else JobAction.jobOff,
          hour := hour, minute := minute })] := by
  simp only [schedule_job] at hok
  split at hok
  · injection hok with h
    subst h
    exact ⟨addJob_map_fst_nodup _ _ _ hnd, addJob_filter_eq _ _ _ hnd⟩
  · cases hok

/-- Witness for C3: re-arming id `"a"` (previously armed as a 01:01 turn-on
job) as a 02:03 turn-off job leaves exactly one live job for `"a"`. -/
theorem schedule_job_unique_live_timer_witness :
    ((([(("a"),
        ({ action := JobAction.jobOff, hour := 2, minute := 3 } : Job))]).map
          Prod.fst).Nodup) ∧
    ([(("a"),
        ({ action := JobAction.jobOff, hour := 2, minute := 3 } : Job))]).filter
        (fun p => p.1 = ("a")) =
      [(("a"), { action := JobAction.jobOff, hour := 2, minute := 3 })] :=
  schedule_job_unique_live_timer ("off") 2 3 ("a")
    { file := .noFile,
      jobs := [(("a"), { action := JobAction.jobOn, hour := 1, minute := 1 })],
      diskFails := false, trace := [] }
    { file := .noFile,
      jobs := [(("a"), { action := JobAction.jobOff, hour := 2, minute := 3 })],
      diskFails := false, trace := [Event.armed ("a")] }
    (by decide) rfl

/-- C5: the claim says every HTTP handler catches every core failure and
returns a structured result.  `GET /api/schedules` has no try/except: on an
unparseable schedules file, `json.load`'s parse error escapes the handler
uncaught. -/
theorem get_schedules_parse_failure_escapes :
    get_schedules
      { file := .corrupt, jobs := [], diskFails := false, trace := [] } =
      .error .storageError :=
  rfl

/-- C9: the `action` field is never validated.  `schedule_job` compares the
action with the exact string `"on"` and otherwise registers the turn-off
callable, both when a schedule is created and when rules are re-armed at
startup, and `add_schedule` accepts the rule without inspecting `action`. -/
theorem action_not_validated_arms_off (r : ScheduleRule) (ts : String)
    (st : ServerState)
    (hne : r.action ≠ ("on"))
    (hrange : cronRangeOk r.hour r.minute) :
    (∃ st', schedule_job r.action r.hour r.minute r.id st = .ok st' ∧
        st'.jobs = addJob st.jobs r.id
          { action := JobAction.jobOff, hour := r.hour, minute := r.minute }) ∧
    (st.file = .content [r] → st.jobs = [] → st.diskFails = false →
      (load_and_schedule st).1.jobs =
        [(r.id,
          { action := JobAction.jobOff, hour := r.hour, minute := r.minute })] ∧
      (add_schedule r.action r.hour r.minute ts st).1.jobs =
        [(make_schedule_id 1 ts,
          { action := JobAction.jobOff, hour := r.hour, minute := r.minute })]) := by
  constructor
  · refine ⟨{ st with
      jobs := addJob st.jobs r.id
        { action := JobAction.jobOff, hour := r.hour, minute := r.minute },
      trace := st.trace ++ [Event.armed r.id] }, ?_, rfl⟩
    simp [schedule_job, hne, hrange]
  · intro hfile hjobs hdisk
    constructor
    · simp [load_and_schedule, hfile, load_schedules, schedule_all,
        schedule_job, hne, hrange, addJob, hjobs]
    · simp [add_schedule, hfile, load_schedules, save_schedules, hdisk,
        schedule_job, hne, hrange, addJob, hjobs, make_schedule_id]

/-- Witness for C9: the misspelled action `"onn"` on a valid 07:30 rule arms
a turn-off timer both from startup loading and from schedule creation. -/
theorem action_not_validated_arms_off_witness :
    (load_and_schedule
        { file := .content [{ id := ("r1"), action := ("onn"),
                              hour := 7, minute := 30 }],
          jobs := [], diskFails := false, trace := [] }).1.jobs =
      [(("r1"), { action := JobAction.jobOff, hour := 7, minute := 30 })] ∧
    (add_schedule ("onn") 7 30 ("t")
        { file := .content [{ id := ("r1"), action := ("onn"),
                              hour := 7, minute := 30 }],
          jobs := [], diskFails := false, trace := [] }).1.jobs =
      [(make_schedule_id 1 ("t"),
        { action := JobAction.jobOff, hour := 7, minute := 30 })] :=
  (action_not_validated_arms_off
    { id := ("r1"), action := ("onn"), hour := 7, minute := 30 } ("t")
    { file := .content [{ id := ("r1"), action := ("onn"),
                          hour := 7, minute := 30 }],
      jobs := [], diskFails := false, trace := [] }
    (by decide) (by decide)).2 rfl rfl rfl

/-- C8: any device-gateway failure during `POST /api/turn_on` or
`POST /api/turn_off` is caught by the handler and returned as
`{"success": false, "error": <message>}` with HTTP status 500; the handler
is a total function of the gateway outcome, so nothing escapes. -/
theorem device_failure_returns_structured_500 (msg : String) :
    turn_on (Except.error msg) =
      { status := 500, success := false, error := some msg } ∧
    turn_off (Except.error msg) =
      { status := 500, success := false, error := some msg } :=
  ⟨rfl, rfl⟩

/-- C4's ordering predicate on a handler's event-trace extension: every
timer mutation (`armed`/`disarmed`) occurs after a store write (`saved`).
The flag records whether a save has already happened. -/
def mutations_after_save : Bool → List Event → Bool
  | _, [] => true
  | _, .saved _ :: rest => mutations_after_save true rest
  | seen, .armed _ :: rest => seen && mutations_after_save seen rest
  | seen, .disarmed _ :: rest => seen && mutations_after_save seen rest

/-- Supporting ordering fact: in `add_schedule` and `delete_schedule` the
store write always precedes the timer mutation in the event trace, and
when persistence fails (`diskFails`), the handler raises and the job table
is untouched.  This is the write-through mechanism the source implements;
it does not prevent the store and the live timer set from diverging when
arming fails after a successful persist (see the divergence theorem). -/
theorem persist_before_timer_mutation (action : String) (hour minute : Int)
    (ts scheduleId : String) (st : ServerState) :
    (∃ ext, (add_schedule action hour minute ts st).1.trace = st.trace ++ ext ∧
        mutations_after_save false ext = true) ∧
    (∃ ext, (delete_schedule scheduleId st).1.trace = st.trace ++ ext ∧
        mutations_after_save false ext = true) ∧
    (st.diskFails = true →
      (add_schedule action hour minute ts st).1.jobs = st.jobs ∧
      (add_schedule action hour minute ts st).2.isOk = false ∧
      (delete_schedule scheduleId st).1.jobs = st.jobs ∧
      (delete_schedule scheduleId st).2.isOk = false) := by
  refine ⟨?_, ?_, ?_⟩
  · -- add_schedule: any armed event follows the saved event
    rcases hld : load_schedules st.file with e | rules
    · exact ⟨[], by simp [add_schedule_load_error action hour minute ts st e hld],
        rfl⟩
    · cases hdisk : st.diskFails with
      | true =>
        exact ⟨[], by
          simp [add_schedule_disk_fail action hour minute ts st rules hld hdisk],
          rfl⟩
      | false =>
        by_cases hr : cronRangeOk hour minute
        · refine ⟨[Event.saved (rules ++
            [⟨make_schedule_id rules.length ts, action, hour, minute⟩]),
            Event.armed (make_schedule_id rules.length ts)], ?_, rfl⟩
          rw [add_schedule_ok_eq action hour minute ts st rules hld hdisk hr]
        · refine ⟨[Event.saved (rules ++
            [⟨make_schedule_id rules.length ts, action, hour, minute⟩])], ?_,
            rfl⟩
          rw [add_schedule_invalid_eq action hour minute ts st rules hld hdisk hr]
  · -- delete_schedule: any disarmed event follows the saved event
    rcases hld : load_schedules st.file with e | rules
    · exact ⟨[], by simp [delete_schedule_load_error scheduleId st e hld], rfl⟩
    · cases hdisk : st.diskFails with
      | true =>
        exact ⟨[], by
          simp [delete_schedule_disk_fail scheduleId st rules hld hdisk], rfl⟩
      | false =>
        rw [delete_schedule_ok_eq scheduleId st rules hld hdisk]
        rcases remove_job_caught_trace scheduleId
          { st with
              file := .content (rules.filter (fun s => s.id ≠ scheduleId)),
              trace := st.trace ++
                [.saved (rules.filter (fun s => s.id ≠ scheduleId))] }
          with htr | htr
        · exact ⟨[Event.saved (rules.filter (fun s => s.id ≠ scheduleId))],
            htr, rfl⟩
        · refine ⟨[Event.saved (rules.filter (fun s => s.id ≠ scheduleId)),
            Event.disarmed scheduleId], ?_, rfl⟩
          rw [htr]
          simp
  · -- diskFails: the handler raises, leaving the job table untouched
    intro hdisk
    rcases hld : load_schedules st.file with e | rules
    · have ha := add_schedule_load_error action hour minute ts st e hld
      have hd := delete_schedule_load_error scheduleId st e hld
      simp [ha, hd, Except.isOk, Except.toBool]
    · have ha := add_schedule_disk_fail action hour minute ts st rules hld hdisk
      have hd := delete_schedule_disk_fail scheduleId st rules hld hdisk
      simp [ha, hd, Except.isOk, Except.toBool]

/-- Concrete instance of the ordering fact: with a failing disk, both
`POST /api/schedules` and `DELETE /api/schedules/x` leave the job table
untouched. -/
theorem persist_before_timer_mutation_witness :
    (add_schedule ("on") 7 30 ("t")
        { file := .content [], jobs := [], diskFails := true,
          trace := [] }).1.jobs = [] ∧
    (delete_schedule ("x")
        { file := .content [], jobs := [], diskFails := true,
          trace := [] }).1.jobs = [] :=
  ⟨((persist_before_timer_mutation ("on") 7 30 ("t") ("x")
      { file := .content [], jobs := [], diskFails := true,
        trace := [] }).2.2 rfl).1,
   ((persist_before_timer_mutation ("on") 7 30 ("t") ("x")
      { file := .content [], jobs := [], diskFails := true,
        trace := [] }).2.2 rfl).2.2.1⟩

/-- C4: the claim says the persisted store and the live timer set never
diverge.  Evaluating `POST /api/schedules` with `{"action": "on",
"hour": 24, "minute": 0}` on an empty store with a healthy disk: the store
write happens (the trace holds the `saved` event and the file holds the new
rule), then `CronTrigger` raises and arming is aborted, so the final state
has a persisted rule whose id has no armed timer — the store and the live
timer set diverge. -/
theorem add_schedule_store_timers_diverge :
    (add_schedule ("on") 24 0 ("t1")
        { file := .content [], jobs := [], diskFails := false,
          trace := [] }).1.file =
      .content [⟨("schedule_0_t1"), ("on"), 24, 0⟩] ∧
    (add_schedule ("on") 24 0 ("t1")
        { file := .content [], jobs := [], diskFails := false,
          trace := [] }).1.trace =
      [Event.saved [⟨("schedule_0_t1"), ("on"), 24, 0⟩]] ∧
    (add_schedule ("on") 24 0 ("t1")
        { file := .content [], jobs := [], diskFails := false,
          trace := [] }).1.jobs.map Prod.fst = [] ∧
    ("schedule_0_t1") ∉
      (add_schedule ("on") 24 0 ("t1")
        { file := .content [], jobs := [], diskFails := false,
          trace := [] }).1.jobs.map Prod.fst :=
  ⟨rfl, rfl, rfl, by decide⟩

/-- C6: deleting a schedule id that is neither in the store nor armed
returns `{"success": true}`, leaves the persisted rule sequence unchanged,
and leaves the job table unchanged: `remove_job`'s lookup error is
swallowed by the bare `except: pass`. -/
theorem delete_absent_id_idempotent (scheduleId : String) (st : ServerState)
    (rules : List ScheduleRule)
    (hdisk : st.diskFails = false)
    (hld : load_schedules st.file = .ok rules)
    (habs : ∀ r ∈ rules, r.id ≠ scheduleId)
    (hjob : st.jobs.any (fun p => p.1 = scheduleId) = false) :
    (delete_schedule scheduleId st).2 = .ok { success := true } ∧
    load_schedules (delete_schedule scheduleId st).1.file = .ok rules ∧
    (delete_schedule scheduleId st).1.jobs = st.jobs := by
  have hfil : rules.filter (fun s => s.id ≠ scheduleId) = rules := by
    rw [List.filter_eq_self]
    intro a ha
    exact decide_eq_true (habs a ha)
  rw [delete_schedule_ok_eq scheduleId st rules hld hdisk]
  rw [remove_job_caught_no_op scheduleId
    { st with
        file := .content (rules.filter (fun s => s.id ≠ scheduleId)),
        trace := st.trace ++
          [.saved (rules.filter (fun s => s.id ≠ scheduleId))] } hjob]
  refine ⟨rfl, ?_, rfl⟩
  rw [hfil]
  rfl

/-- Witness for C6: deleting the unknown id `"zzz"` from a store holding
one rule with id `"a"` (armed) succeeds and changes nothing. -/
theorem delete_absent_id_idempotent_witness :
    (delete_schedule ("zzz")
        { file := .content [⟨("a"), ("on"), 1, 2⟩],
          jobs := [(("a"), ⟨JobAction.jobOn, 1, 2⟩)],
          diskFails := false, trace := [] }).2 = .ok { success := true } ∧
    load_schedules
        (delete_schedule ("zzz")
          { file := .content [⟨("a"), ("on"), 1, 2⟩],
            jobs := [(("a"), ⟨JobAction.jobOn, 1, 2⟩)],
            diskFails := false, trace := [] }).1.file =
      .ok [⟨("a"), ("on"), 1, 2⟩] ∧
    (delete_schedule ("zzz")
        { file := .content [⟨("a"), ("on"), 1, 2⟩],
          jobs := [(("a"), ⟨JobAction.jobOn, 1, 2⟩)],
          diskFails := false, trace := [] }).1.jobs =
      [(("a"), ⟨JobAction.jobOn, 1, 2⟩)] :=
  delete_absent_id_idempotent ("zzz")
    { file := .content [⟨("a"), ("on"), 1, 2⟩],
      jobs := [(("a"), ⟨JobAction.jobOn, 1, 2⟩)],
      diskFails := false, trace := [] }
    [⟨("a"), ("on"), 1, 2⟩] rfl rfl (by decide) (by decide)

/-- C7: saving a rule sequence and loading returns the same sequence in the
same order, and saving what was just loaded leaves the persisted content
unchanged (loading again yields the same result as before the save). -/
theorem persistence_roundtrip (rules : List ScheduleRule) (st : ServerState)
    (hdisk : st.diskFails = false) :
    ((save_schedules rules st).map (fun st' => load_schedules st'.file) =
      .ok (.ok rules)) ∧
    (∀ loaded, load_schedules st.file = .ok loaded →
      (save_schedules loaded st).map (fun st' => load_schedules st'.file) =
        .ok (load_schedules st.file)) := by
  constructor
  · rw [save_schedules_ok rules st hdisk]
    rfl
  · intro loaded hld
    rw [save_schedules_ok loaded st hdisk, hld]
    rfl

/-- Witness for C7: both round-trip directions evaluated on a one-rule
store. -/
theorem persistence_roundtrip_witness :
    ((save_schedules [⟨("a"), ("on"), 1, 2⟩]
        { file := .content [⟨("b"), ("off"), 3, 4⟩], jobs := [],
          diskFails := false, trace := [] }).map
        (fun st' => load_schedules st'.file) =
      .ok (.ok [⟨("a"), ("on"), 1, 2⟩])) ∧
    ((save_schedules [⟨("b"), ("off"), 3, 4⟩]
        { file := .content [⟨("b"), ("off"), 3, 4⟩], jobs := [],
          diskFails := false, trace := [] }).map
        (fun st' => load_schedules st'.file) =
      .ok (load_schedules
            (FileState.content [⟨("b"), ("off"), 3, 4⟩]))) :=
  ⟨(persistence_roundtrip [⟨("a"), ("on"), 1, 2⟩]
      { file := .content [⟨("b"), ("off"), 3, 4⟩], jobs := [],
        diskFails := false, trace := [] } rfl).1,
   (persistence_roundtrip [⟨("a"), ("on"), 1, 2⟩]
      { file := .content [⟨("b"), ("off"), 3, 4⟩], jobs := [],
        diskFails := false, trace := [] } rfl).2
     [⟨("b"), ("off"), 3, 4⟩] rfl⟩

/-- C10: deleting an id filters out every stored rule whose id matches (all
duplicates at once) and always rewrites the file in full — a `saved` event
with the filtered sequence is always in the trace, matches or not. -/
theorem delete_removes_all_matches_and_rewrites (scheduleId : String)
    (st : ServerState) (rules : List ScheduleRule)
    (hdisk : st.diskFails = false)
    (hld : load_schedules st.file = .ok rules) :
    (delete_schedule scheduleId st).1.file =
      .content (rules.filter (fun s => s.id ≠ scheduleId)) ∧
    Event.saved (rules.filter (fun s => s.id ≠ scheduleId)) ∈
      (delete_schedule scheduleId st).1.trace := by
  rw [delete_schedule_ok_eq scheduleId st rules hld hdisk]
  constructor
  · rw [remove_job_caught_file]
  · rcases remove_job_caught_trace scheduleId
      { st with
          file := .content (rules.filter (fun s => s.id ≠ scheduleId)),
          trace := st.trace ++
            [.saved (rules.filter (fun s => s.id ≠ scheduleId))] }
      with htr | htr
    · rw [htr]
      simp
    · rw [htr]
      simp

/-- Witness for C10: deleting `"x"` from a store holding two rules with id
`"x"` and one with id `"y"` removes both `"x"` rules and rewrites the file
with the remaining rule. -/
theorem delete_removes_all_matches_and_rewrites_witness :
    (delete_schedule ("x")
        { file := .content [⟨("x"), ("on"), 1, 1⟩, ⟨("y"), ("off"), 2, 2⟩,
            ⟨("x"), ("off"), 3, 3⟩],
          jobs := [], diskFails := false, trace := [] }).1.file =
      .content [⟨("y"), ("off"), 2, 2⟩] ∧
    Event.saved [⟨("y"), ("off"), 2, 2⟩] ∈
      (delete_schedule ("x")
        { file := .content [⟨("x"), ("on"), 1, 1⟩, ⟨("y"), ("off"), 2, 2⟩,
            ⟨("x"), ("off"), 3, 3⟩],
          jobs := [], diskFails := false, trace := [] }).1.trace :=
  delete_removes_all_matches_and_rewrites ("x")
    { file := .content [⟨("x"), ("on"), 1, 1⟩, ⟨("y"), ("off"), 2, 2⟩,
        ⟨("x"), ("off"), 3, 3⟩],
      jobs := [], diskFails := false, trace := [] }
    [⟨("x"), ("on"), 1, 1⟩, ⟨("y"), ("off"), 2, 2⟩, ⟨("x"), ("off"), 3, 3⟩]
    rfl rfl

end FrogBubler
